import Mathlib

/-!
# Shallow embedding of `weather_data.py`

The script loads a CSV weather table, cleans it, computes four temperature
statistics, plots three charts, exports the cleaned table, and prints a
completion banner.  We embed the tabular data model and every data
transformation the script performs.

* A cell is `Option ℚ`: `none` is the null marker (pandas `NaN`/`NaT`), and a
  present numeric value is an exact rational (CSV numerals are finite
  decimals; pandas float text round-trips exactly, so exact rationals model
  the equality tests the script performs, e.g. `replace([-99.9, -99.99])`).
* A row is a structure with the seven columns the script names, plus a list
  `extras` of any further columns, so that whole-table operations
  (`df.replace`) visibly act on every column.
* A table is a list of rows (pandas preserves row order in every operation
  the script uses), together with a header of column names for
  `df.columns.str.strip()` (line 27).
-/

namespace WeatherData

/-- One row of the Weather Record Table.  Fields mirror the columns the
script addresses by name; `extras` holds all remaining columns. -/
structure Row where
  year : Option ℚ
  month : Option ℚ
  day : Option ℚ
  maxTemp : Option ℚ
  minTemp : Option ℚ
  meanTemp : Option ℚ
  precipitation : Option ℚ
  extras : List (Option ℚ)
deriving DecidableEq

/-- The sentinel `-99.9` of line 29, as the exact rational `-999/10`
(given in normalised form so that the kernel can evaluate comparisons;
`sentinel1_eq` below identifies it with the literal `-99.9`). -/
def sentinel1 : ℚ := ⟨-999, 10, by decide, by decide⟩

/-- The sentinel `-99.99` of line 29, as the exact rational `-9999/100`
(see `sentinel2_eq`). -/
def sentinel2 : ℚ := ⟨-9999, 100, by decide, by decide⟩

/-- The sentinel missing-value list of line 29: `[-99.9, -99.99]`. -/
def sentinels : List ℚ := [sentinel1, sentinel2]

/-- Cell-wise semantics of `df.replace([-99.9, -99.99], np.nan)` (line 29):
a present value belonging to the sentinel list becomes null, anything else
is untouched. -/
def replaceCell (c : Option ℚ) : Option ℚ :=
  c.bind fun v => if v ∈ sentinels then none else some v

/-- Line 29 applied to one row: `df.replace` acts on every cell of every
column. -/
def replaceRow (r : Row) : Row :=
  { year := replaceCell r.year
    month := replaceCell r.month
    day := replaceCell r.day
    maxTemp := replaceCell r.maxTemp
    minTemp := replaceCell r.minTemp
    meanTemp := replaceCell r.meanTemp
    precipitation := replaceCell r.precipitation
    extras := r.extras.map replaceCell }

/-- The table after line 29 (`df = df.replace(...)`). -/
def dfReplaced (t : List Row) : List Row := t.map replaceRow

/-- Row predicate of line 31: `dropna(subset=['MAX TEMP', 'MIN TEMP'])`
keeps a row iff both temperature cells are non-null. -/
def tempOk (r : Row) : Bool := r.maxTemp.isSome && r.minTemp.isSome

/-- Line 31: `df_clean = df.dropna(subset=['MAX TEMP', 'MIN TEMP'])`.
This intermediate table is the one the four temperature statistics
(lines 38-42) read. -/
def dfCleanTemps (t : List Row) : List Row := (dfReplaced t).filter tempOk

/-- Semantics of `Series.max()`: null cells are skipped; the result on an
empty (or all-null) series is the undefined marker `none` (pandas `NaN`). -/
def colMax (l : List (Option ℚ)) : Option ℚ :=
  (l.filterMap id).foldl (fun acc v =>
    match acc with
    | none => some v
    | some m => some (max m v)) none

/-- Semantics of `Series.min()`, dually to `colMax`. -/
def colMin (l : List (Option ℚ)) : Option ℚ :=
  (l.filterMap id).foldl (fun acc v =>
    match acc with
    | none => some v
    | some m => some (min m v)) none

/-- Line 38: `highest_max_temp = df_clean['MAX TEMP'].max()`, where
`df_clean` is the line-31 table. -/
def highest_max_temp (t : List Row) : Option ℚ :=
  colMax ((dfCleanTemps t).map (·.maxTemp))

/-- Line 40: `lowest_max_temp = df_clean['MAX TEMP'].min()`. -/
def lowest_max_temp (t : List Row) : Option ℚ :=
  colMin ((dfCleanTemps t).map (·.maxTemp))

/-- Line 41: `highest_min_temp = df_clean['MIN TEMP'].max()`. -/
def highest_min_temp (t : List Row) : Option ℚ :=
  colMax ((dfCleanTemps t).map (·.minTemp))

/-- Line 42: `lowest_min_temp = df_clean['MIN TEMP'].min()`. -/
def lowest_min_temp (t : List Row) : Option ℚ :=
  colMin ((dfCleanTemps t).map (·.minTemp))

/-- Gregorian leap-year test, as used by the date assembly of
`pd.to_datetime`. -/
def isLeapYear (y : ℤ) : Bool :=
  (y % 4 == 0 && y % 100 != 0) || y % 400 == 0

/-- Number of days of month `m` (1-12) of year `y`; `0` for an invalid
month number. -/
def daysInMonth (y : ℤ) (m : ℤ) : ℤ :=
  if m = 1 then 31 else if m = 2 then (if isLeapYear y then 29 else 28)
  else if m = 3 then 31 else if m = 4 then 30 else if m = 5 then 31
  else if m = 6 then 30 else if m = 7 then 31 else if m = 8 then 31
  else if m = 9 then 30 else if m = 10 then 31 else if m = 11 then 30
  else if m = 12 then 31 else 0

/-- A cell read as an integer: the datetime assembly needs an integral
numeric value (a null or fractional cell cannot form a date). -/
def cellInt (c : Option ℚ) : Option ℤ :=
  c.bind fun q => if q.den = 1 then some q.num else none

/-- Line 54: `pd.to_datetime(df[['YEAR','MONTH','DAY']], errors='coerce')`
for one row: the assembled `(year, month, day)` date, or `none` (`NaT`)
when the combination is not a valid calendar date.  (The library further
restricts dates to the `Timestamp` epoch range; the spec scopes date
parsing to the library, and no claim turns on that bound.) -/
def rowDate (r : Row) : Option (ℤ × ℤ × ℤ) :=
  match cellInt r.year, cellInt r.month, cellInt r.day with
  | some y, some m, some d =>
      if 1 ≤ m ∧ m ≤ 12 ∧ 1 ≤ d ∧ d ≤ daysInMonth y m then some (y, m, d)
      else none
  | _, _, _ => none

/-- Row predicate of line 55: `dropna(subset=['DATE'])` keeps a row iff its
assembled `DATE` is not `NaT`. -/
def dateOk (r : Row) : Bool := (rowDate r).isSome

/-- Lines 54-55: the `DATE` column is derived on the full replaced table
`df` (not on the line-31 table), and rows with `NaT` dates are dropped:
`df_clean = df.dropna(subset=['DATE'])`. -/
def dfCleanDates (t : List Row) : List Row := (dfReplaced t).filter dateOk

/-- Row predicate of line 62: `dropna(subset=['MAX TEMP', 'MIN TEMP',
'PRECIPITATION'])`. -/
def keyOk (r : Row) : Bool :=
  r.maxTemp.isSome && r.minTemp.isSome && r.precipitation.isSome

/-- Line 62, the final cleaned table:
`df_clean = df_clean.dropna(subset=['MAX TEMP','MIN TEMP','PRECIPITATION'])`
applied after the date filter of line 55.  (Line 59's `set_index('DATE')`
makes the derived date the row index; row content and order are
unchanged, so the index is recovered by `rowDate`.) -/
def df_clean (t : List Row) : List Row := (dfCleanDates t).filter keyOk

/-- The date index of the final cleaned table (line 59): every retained row
has a valid date, so `filterMap rowDate` lists the index in row order. -/
def cleanIndex (t : List Row) : List (ℤ × ℤ × ℤ) :=
  (df_clean t).filterMap rowDate

/-! ## Completion banner (lines 138-139)

`df_clean.index.min()` / `.max()` on an empty `DatetimeIndex` return `NaT`,
and `NaT.strftime('%Y-%m-%d')` raises (`NaTType does not support strftime`),
terminating the process before the completion output is printed. -/

/-- Chronological ordering key of an assembled date. -/
def dateKey : ℤ × ℤ × ℤ → ℤ
  | (y, m, d) => y * 10000 + m * 100 + d

/-- Semantics of `DatetimeIndex.min()`: the chronologically least date,
`none` (`NaT`) on an empty index. -/
def indexMin (l : List (ℤ × ℤ × ℤ)) : Option (ℤ × ℤ × ℤ) :=
  l.foldl (fun acc d =>
    match acc with
    | none => some d
    | some a => if dateKey d < dateKey a then some d else some a) none

/-- Semantics of `DatetimeIndex.max()`: the chronologically greatest date,
`none` (`NaT`) on an empty index. -/
def indexMax (l : List (ℤ × ℤ × ℤ)) : Option (ℤ × ℤ × ℤ) :=
  l.foldl (fun acc d =>
    match acc with
    | none => some d
    | some a => if dateKey a < dateKey d then some d else some a) none

/-- Semantics of `.strftime('%Y-%m-%d')`: formats a date; on `NaT` the
library raises, modelled as `Except.error`. -/
def strftimeYmd : Option (ℤ × ℤ × ℤ) → Except String String
  | none => Except.error "NaTType does not support strftime"
  | some (y, m, d) => Except.ok (toString y ++ "-" ++ toString m ++ "-" ++ toString d)

/-- Line 139: the banner's date-range line,
`f"Date range: ... .strftime ... to ... .strftime ..."`; an exception from
either `strftime` call aborts the print. -/
def completionBanner (t : List Row) : Except String String := do
  let lo ← strftimeYmd (indexMin (cleanIndex t))
  let hi ← strftimeYmd (indexMax (cleanIndex t))
  Except.ok ("Date range: " ++ lo ++ " to " ++ hi)

/-! ## The cleaning stage as a whole (lines 27-62), with the header -/

/-- A Python-style whitespace character (`str.strip` default set). -/
def isSpaceChar (c : Char) : Bool :=
  c == ' ' || c == '\t' || c == '\n' || c == '\r' || c == '\x0b' || c == '\x0c'

/-- Semantics of `str.strip()` on one column name: remove leading and
trailing whitespace. -/
def stripName (s : List Char) : List Char :=
  (s.dropWhile isSpaceChar).rdropWhile isSpaceChar

/-- The Weather Record Table: column names (as character lists, so that
`str.strip` is a list operation) and the rows. -/
structure Table where
  header : List (List Char)
  rows : List Row
deriving DecidableEq

/-- The whole cleaning stage, lines 27-62: strip the column names
(line 27), then the row pipeline `replace` / date derivation / null drops
producing the final `df_clean`. -/
def cleanStage (t : Table) : Table :=
  { header := t.header.map stripName
    rows := df_clean t.rows }

/-! ## Sequential pipeline as specified (section 4.2 of the spec)

The spec words the Cleaner as six steps, each transforming the output of
the previous step; in particular its step-4 date filter runs on the output
of the step-3 temperature drop, whereas the code re-derives the date
filter from the full replaced table (line 55 starts again from `df`).
`specCleanerRows` is modelled from the SPEC's wording, for comparison with
`df_clean`. -/

/-- Modelled from the spec (section 4.2): steps 2-6 applied strictly in
sequence to the row list: replace sentinels; drop rows with a null
temperature; drop rows whose assembled date is invalid; drop rows where
`MAX TEMP`, `MIN TEMP` or `PRECIPITATION` is still null.  (Steps 1 and 5
touch only the header and the index, not the row set.) -/
def specCleanerRows (t : List Row) : List Row :=
  (((t.map replaceRow).filter tempOk).filter dateOk).filter keyOk

/-! ## CSV export and reload (lines 131 and 11)

`df_clean.to_csv(..., index=True)` writes the date index as a text column
followed by the numeric cells as decimal text; `pd.read_csv` parses the
numeric text back (float text round-trips exactly through pandas) and
leaves the date column as text.  The textual encoding of a numeric cell is
modelled by its exact numerator/denominator pair; a null cell is written
as an empty field and read back as null. -/

/-- Serialized form of one numeric cell: `none` is the empty field, a
value is its exact numeral text, modelled as the numerator/denominator
pair. -/
def writeCell (c : Option ℚ) : Option (ℤ × ℕ) :=
  c.map fun q => (q.num, q.den)

/-- Parsing of one numeric field back to a cell, as `read_csv` does. -/
def readCell (c : Option (ℤ × ℕ)) : Option ℚ :=
  c.map fun p => (p.1 : ℚ) / (p.2 : ℚ)

/-- One line of the exported CSV: the formatted date index (a text field;
`read_csv` keeps it as text) and the numeric fields in column order. -/
structure CsvLine where
  dateField : String
  year : Option (ℤ × ℕ)
  month : Option (ℤ × ℕ)
  day : Option (ℤ × ℕ)
  maxTemp : Option (ℤ × ℕ)
  minTemp : Option (ℤ × ℕ)
  meanTemp : Option (ℤ × ℕ)
  precipitation : Option (ℤ × ℕ)
  extras : List (Option (ℤ × ℕ))

/-- One row written out by `to_csv`: the formatted date index field first,
then every cell as its numeral text. -/
def toCsvRow (r : Row) : CsvLine :=
  { dateField := (strftimeYmd (rowDate r)).toOption.getD ""
    year := writeCell r.year
    month := writeCell r.month
    day := writeCell r.day
    maxTemp := writeCell r.maxTemp
    minTemp := writeCell r.minTemp
    meanTemp := writeCell r.meanTemp
    precipitation := writeCell r.precipitation
    extras := r.extras.map writeCell }

/-- Line 131: `df_clean.to_csv('cleaned_weather_data.csv', index=True)`
writes one line per row, the date index first. -/
def toCsv (t : List Row) : List CsvLine := t.map toCsvRow

/-- One reloaded CSV line: the former index arrives as a text column (kept
separately, since the reloaded numeric columns are what the statistics
read). -/
def fromCsvRow (e : CsvLine) : String × Row :=
  (e.dateField,
    { year := readCell e.year
      month := readCell e.month
      day := readCell e.day
      maxTemp := readCell e.maxTemp
      minTemp := readCell e.minTemp
      meanTemp := readCell e.meanTemp
      precipitation := readCell e.precipitation
      extras := e.extras.map readCell })

/-- Line 11 semantics applied to the exported file: each CSV line becomes
a row again. -/
def fromCsv (l : List CsvLine) : List (String × Row) := l.map fromCsvRow

/-- The four statistics of lines 38-42 evaluated over a given table (used
to compare the exported table with its reload). -/
def tempStats (t : List Row) : Option ℚ × Option ℚ × Option ℚ × Option ℚ :=
  (colMax (t.map (·.maxTemp)), colMin (t.map (·.maxTemp)),
   colMax (t.map (·.minTemp)), colMin (t.map (·.minTemp)))

/-! ## Concrete rows, for evaluating the pipeline at explicit inputs -/

/-- A fully valid row: 2020-01-01, max 40, min 20, mean 30, no rain. -/
def exRowGood : Row := ⟨some 2020, some 1, some 1, some 40, some 20, some 30, some 0, []⟩

/-- A row with both temperatures present (max 100) but a null
`PRECIPITATION` cell: it survives the line-31 temperature drop yet is
excluded from the final cleaned table. -/
def exRowHighMax : Row := ⟨some 2020, some 1, some 2, some 100, some 20, some 30, none, []⟩

/-- A row whose `MAX TEMP` holds the sentinel `-99.9`: substitution nulls
it and the temperature drop removes the row. -/
def exRowTempSentinel : Row :=
  ⟨some 2020, some 1, some 3, some sentinel1, some 20, some 30, some 1, []⟩

/-- A row whose `MEAN TEMP` holds the sentinel `-99.9` but whose required
fields are all present and whose date is valid. -/
def exRowMeanSentinel : Row :=
  ⟨some 2020, some 1, some 4, some 45, some 22, some sentinel1, some 1, []⟩

/-- A row with an impossible calendar date (2020-02-30). -/
def exRowBadDate : Row := ⟨some 2020, some 2, some 30, some 40, some 20, some 30, some 0, []⟩

/-! ## Helper lemmas -/

/-- The first sentinel is the literal `-99.9`. -/
theorem sentinel1_eq : sentinel1 = -99.9 := by
  rw [sentinel1, Rat.mk'_eq_divInt, Rat.divInt_eq_div]; norm_num

/-- The second sentinel is the literal `-99.99`. -/
theorem sentinel2_eq : sentinel2 = -99.99 := by
  rw [sentinel2, Rat.mk'_eq_divInt, Rat.divInt_eq_div]; norm_num

theorem replaceCell_idem (c : Option ℚ) : replaceCell (replaceCell c) = replaceCell c := by
  cases c with
  | none => rfl
  | some v =>
    by_cases h : v ∈ sentinels <;> simp [replaceCell, h]

theorem map_replaceCell_idem (l : List (Option ℚ)) :
    (l.map replaceCell).map replaceCell = l.map replaceCell := by
  rw [List.map_map]
  exact List.map_congr_left fun a _ => replaceCell_idem a

theorem replaceRow_idem (r : Row) : replaceRow (replaceRow r) = replaceRow r := by
  cases r
  simp [replaceRow, replaceCell_idem, map_replaceCell_idem]

/-- Membership in the final cleaned table, unfolded once. -/
theorem mem_df_clean {t : List Row} {r : Row} :
    r ∈ df_clean t ↔ r ∈ dfReplaced t ∧ dateOk r = true ∧ keyOk r = true := by
  simp only [df_clean, dfCleanDates, List.mem_filter, and_assoc]

/-- A prefix of a list that drops nothing under `dropWhile` also drops
nothing. -/
theorem dropWhile_eq_self_of_pre {p : α → Bool} {l₁ l₂ : List α}
    (hpre : l₁ <+: l₂) (h : List.dropWhile p l₂ = l₂) : List.dropWhile p l₁ = l₁ := by
  cases l₁ with
  | nil => rfl
  | cons a l =>
    obtain ⟨rest, rfl⟩ := hpre
    rw [List.cons_append, List.dropWhile_cons] at h
    rw [List.dropWhile_cons]
    by_cases hp : p a
    · rw [if_pos hp] at h
      exfalso
      have hlen := congrArg List.length h
      have hle := ((List.dropWhile_suffix (l := l ++ rest) p).sublist).length_le
      simp only [List.length_cons] at hlen
      omega
    · rw [if_neg hp]

/-- Stripping a column name twice is the same as stripping it once. -/
theorem stripName_idem (s : List Char) : stripName (stripName s) = stripName s := by
  unfold stripName
  have hpre := List.rdropWhile_prefix isSpaceChar (s.dropWhile isSpaceChar)
  rw [dropWhile_eq_self_of_pre hpre (List.dropWhile_idempotent _ _)]
  exact List.rdropWhile_idempotent _ _

/-- The row part of the final cleaned table is a fixed point of the whole
row pipeline. -/
theorem df_clean_fix (l : List Row) : df_clean (df_clean l) = df_clean l := by
  have h1 : dfReplaced (df_clean l) = df_clean l := by
    rw [dfReplaced]
    have hfix : ∀ x ∈ df_clean l, replaceRow x = id x := by
      intro x hx
      obtain ⟨y, -, rfl⟩ := List.mem_map.mp (mem_df_clean.mp hx).1
      exact replaceRow_idem y
    rw [List.map_congr_left hfix, List.map_id]
  have h2 : ∀ x ∈ df_clean l, dateOk x = true := fun x hx => (mem_df_clean.mp hx).2.1
  have h3 : ∀ x ∈ df_clean l, keyOk x = true := fun x hx => (mem_df_clean.mp hx).2.2
  calc df_clean (df_clean l)
      = ((df_clean l).filter dateOk).filter keyOk := by
        rw [df_clean, dfCleanDates, h1]
    _ = (df_clean l).filter keyOk := by rw [List.filter_eq_self.mpr h2]
    _ = df_clean l := List.filter_eq_self.mpr h3

/-- Writing one numeric cell out and parsing it back is the identity. -/
theorem readCell_writeCell (c : Option ℚ) : readCell (writeCell c) = c := by
  cases c with
  | none => rfl
  | some q => simp [readCell, writeCell, Rat.num_div_den]

/-- The row content of the exported table is recovered exactly by the
reload. -/
theorem fromCsv_toCsv (l : List Row) : (fromCsv (toCsv l)).map Prod.snd = l := by
  rw [toCsv, fromCsv, List.map_map, List.map_map]
  have hone : ∀ r ∈ l, ((Prod.snd ∘ fromCsvRow) ∘ toCsvRow) r = id r := by
    intro r _
    cases r
    simp [fromCsvRow, toCsvRow, readCell_writeCell, List.map_map]
    exact (List.map_congr_left fun a _ => readCell_writeCell a).trans (List.map_id _)
  rw [List.map_congr_left hone, List.map_id]

/-! ## Claim theorems -/

/-- Claim C1: for every input table, a row is present in the final cleaned
table iff, after sentinel substitution, its `MAX TEMP`, `MIN TEMP` and
`PRECIPITATION` cells are all non-null and its `YEAR`/`MONTH`/`DAY` cells
form a valid calendar date. -/
theorem c1_row_survival_iff (t : List Row) (r : Row) :
    r ∈ df_clean t ↔
      r ∈ t.map replaceRow ∧ (rowDate r).isSome = true ∧
        r.maxTemp ≠ none ∧ r.minTemp ≠ none ∧ r.precipitation ≠ none := by
  rw [mem_df_clean, dfReplaced]
  simp only [dateOk, keyOk, Bool.and_eq_true, Option.isSome_iff_ne_none, and_assoc]

/-- Claim C3: sentinel substitution maps every cell whose value is exactly
`-99.9` or `-99.99` to the null marker, and leaves every other present
value unchanged. -/
theorem c3_sentinel_substitution (c : Option ℚ) :
    (replaceCell c = none ↔ c = none ∨ c = some (-99.9) ∨ c = some (-99.99)) ∧
      ∀ v : ℚ, v ≠ -99.9 → v ≠ -99.99 → replaceCell (some v) = some v := by
  constructor
  · cases c with
    | none => simp [replaceCell]
    | some v =>
      by_cases h1 : v = -99.9 <;> by_cases h2 : v = -99.99 <;>
        simp [replaceCell, sentinels, sentinel1_eq, sentinel2_eq, h1, h2]
  · intro v h1 h2
    simp [replaceCell, sentinels, sentinel1_eq, sentinel2_eq, h1, h2]

/-- Witness for C3 at concrete cells: an ordinary value `40` is kept, the
sentinel `-99.9` is nulled. -/
theorem c3_sentinel_substitution_witness :
    replaceCell (some 40) = some 40 ∧ replaceCell (some (-99.9)) = none :=
  ⟨(c3_sentinel_substitution (some 40)).2 40 (by norm_num) (by norm_num),
   (c3_sentinel_substitution (some (-99.9))).1.mpr (Or.inr (Or.inl rfl))⟩

/-- Claim C7: the final cleaned table is the (order-preserving) filtration
of the substituted input rows — its row sequence is the input sequence
with the dropped rows removed, never reordered. -/
theorem c7_order_preserved (t : List Row) :
    df_clean t = (t.map replaceRow).filter (fun r => dateOk r && keyOk r) ∧
      List.Sublist (df_clean t) (t.map replaceRow) := by
  constructor
  · rw [df_clean, dfCleanDates, dfReplaced, List.filter_filter]
    exact List.filter_congr fun a _ => Bool.and_comm (keyOk a) (dateOk a)
  · rw [df_clean, dfCleanDates, dfReplaced]
    exact (List.filter_sublist _).trans (List.filter_sublist _)

/-- Claim C8: when the table the statistics are computed over (the line-31
table) is empty, each of the four min/max computations returns the
undefined marker `none` (pandas `NaN`) — none of them fails. -/
theorem c8_empty_stats (t : List Row) (h : dfCleanTemps t = []) :
    highest_max_temp t = none ∧ lowest_max_temp t = none ∧
      highest_min_temp t = none ∧ lowest_min_temp t = none := by
  simp [highest_max_temp, lowest_max_temp, highest_min_temp, lowest_min_temp,
    h, colMax, colMin]

/-- Witness for C8: the empty input table. -/
theorem c8_empty_stats_witness :
    dfCleanTemps [] = [] ∧
      (highest_max_temp [] = none ∧ lowest_max_temp [] = none ∧
        highest_min_temp [] = none ∧ lowest_min_temp [] = none) :=
  ⟨rfl, c8_empty_stats [] rfl⟩

/-- Claim C9: when the final cleaned table is empty, the completion
banner's date-range line fails — `.min()`/`.max()` of the empty date
index give `NaT`, and formatting `NaT` raises — so the pipeline does not
complete normally. -/
theorem c9_empty_banner_raises (t : List Row) (h : df_clean t = []) :
    completionBanner t = Except.error "NaTType does not support strftime" := by
  have hidx : cleanIndex t = [] := by rw [cleanIndex, h]; rfl
  rw [completionBanner, hidx]
  rfl

/-- Witness for C9: a one-row input whose only row has a sentinel
temperature, so the final cleaned table is empty. -/
theorem c9_empty_banner_raises_witness :
    df_clean [exRowTempSentinel] = [] ∧
      completionBanner [exRowTempSentinel] =
        Except.error "NaTType does not support strftime" :=
  ⟨by decide, c9_empty_banner_raises [exRowTempSentinel] (by decide)⟩

/-- Claim C10: cleaning never conditions on `MEAN TEMP` — a row whose
substituted `MEAN TEMP` is null (or anything else) still reaches the
final cleaned table provided its date is valid and its `MAX TEMP`,
`MIN TEMP` and `PRECIPITATION` are non-null. -/
theorem c10_mean_temp_not_required (t : List Row) (r : Row) (hmem : r ∈ t)
    (hdate : dateOk (replaceRow r) = true)
    (hmax : (replaceRow r).maxTemp ≠ none)
    (hmin : (replaceRow r).minTemp ≠ none)
    (hprec : (replaceRow r).precipitation ≠ none) :
    replaceRow r ∈ df_clean t := by
  refine mem_df_clean.mpr ⟨List.mem_map_of_mem replaceRow hmem, hdate, ?_⟩
  simp only [keyOk, Bool.and_eq_true, Option.isSome_iff_ne_none]
  exact ⟨⟨hmax, hmin⟩, hprec⟩

/-- Witness for C10: a row whose `MEAN TEMP` is the sentinel `-99.9`
survives cleaning, and its `MEAN TEMP` is null in the cleaned table. -/
theorem c10_mean_temp_not_required_witness :
    replaceRow exRowMeanSentinel ∈ df_clean [exRowGood, exRowMeanSentinel] ∧
      (replaceRow exRowMeanSentinel).meanTemp = none :=
  ⟨c10_mean_temp_not_required [exRowGood, exRowMeanSentinel] exRowMeanSentinel
      (by decide) (by decide) (by decide) (by decide) (by decide),
   by decide⟩

/-- Claim C2 is false on the code: a row excluded from the final cleaned
table (here by its null `PRECIPITATION`) does influence the printed
statistics, because lines 38-42 read the line-31 table, not the final
one — `highest_max_temp` is `100` although the cleaned table's largest
`MAX TEMP` is `40`. -/
theorem c2_stats_counterexample :
    replaceRow exRowHighMax ∉ df_clean [exRowGood, exRowHighMax] ∧
      highest_max_temp [exRowGood, exRowHighMax] ≠ highest_max_temp [exRowGood] ∧
      highest_max_temp [exRowGood, exRowHighMax] ≠
        colMax ((df_clean [exRowGood, exRowHighMax]).map (·.maxTemp)) := by
  decide

/-- Claim C2 (amended): the four statistics are computed over the line-31
intermediate table — after sentinel substitution and the `MAX TEMP` /
`MIN TEMP` null drop only — so a row dropped by that temperature filter
does not influence any of the four statistics (while rows excluded later
by the date or precipitation filters still can). -/
theorem c2_stats_over_temp_table (t : List Row) (r : Row)
    (h : tempOk (replaceRow r) = false) :
    highest_max_temp (t ++ [r]) = highest_max_temp t ∧
      lowest_max_temp (t ++ [r]) = lowest_max_temp t ∧
      highest_min_temp (t ++ [r]) = highest_min_temp t ∧
      lowest_min_temp (t ++ [r]) = lowest_min_temp t := by
  have key : dfCleanTemps (t ++ [r]) = dfCleanTemps t := by
    simp [dfCleanTemps, dfReplaced, List.filter_append, h]
  simp [highest_max_temp, lowest_max_temp, highest_min_temp, lowest_min_temp, key]

/-- Witness for the amended C2: appending a sentinel-temperature row
leaves all four statistics unchanged. -/
theorem c2_stats_over_temp_table_witness :
    tempOk (replaceRow exRowTempSentinel) = false ∧
      (highest_max_temp ([exRowGood] ++ [exRowTempSentinel]) = highest_max_temp [exRowGood] ∧
        lowest_max_temp ([exRowGood] ++ [exRowTempSentinel]) = lowest_max_temp [exRowGood] ∧
        highest_min_temp ([exRowGood] ++ [exRowTempSentinel]) = highest_min_temp [exRowGood] ∧
        lowest_min_temp ([exRowGood] ++ [exRowTempSentinel]) = lowest_min_temp [exRowGood]) :=
  ⟨by decide, c2_stats_over_temp_table [exRowGood] exRowTempSentinel (by decide)⟩

/-- Claim C4: the code's pipeline — which re-derives the date filter from
the full substituted table at line 55 instead of from the line-31
temperature-filtered table — yields exactly the row set of the spec's
strictly sequential six-step pipeline, for every input. -/
theorem c4_pipeline_equivalence (t : List Row) : specCleanerRows t = df_clean t := by
  rw [specCleanerRows, df_clean, dfCleanDates, dfReplaced,
    List.filter_filter, List.filter_filter, List.filter_filter]
  refine List.filter_congr fun r _ => ?_
  cases hmax : r.maxTemp.isSome <;> cases hmin : r.minTemp.isSome <;>
    cases hprec : r.precipitation.isSome <;>
      simp [tempOk, keyOk, hmax, hmin, hprec]

/-- Claim C5: the cleaning stage (column-name strip plus the row pipeline)
is idempotent — running it on its own output changes nothing. -/
theorem c5_cleaning_idempotent (t : Table) : cleanStage (cleanStage t) = cleanStage t := by
  rw [cleanStage, cleanStage, Table.mk.injEq]
  constructor
  · rw [List.map_map]
    exact List.map_congr_left fun a _ => stripName_idem a
  · exact df_clean_fix t.rows

/-- Claim C6: exporting any final cleaned table to CSV and re-loading the
file yields a table with the same number of rows and the same four
min/max temperature statistics (the date index only changes
representation, to a text column). -/
theorem c6_csv_roundtrip (t : List Row) :
    (fromCsv (toCsv (df_clean t))).length = (df_clean t).length ∧
      tempStats ((fromCsv (toCsv (df_clean t))).map Prod.snd) = tempStats (df_clean t) := by
  constructor
  · have := congrArg List.length (fromCsv_toCsv (df_clean t))
    simpa using this
  · rw [fromCsv_toCsv]

end WeatherData
